import Mathlib

/-
Verification development for the LTspice ASC schematic editor
(src/spicelib/editor/asc_editor.py).  The Python code is shallowly
embedded: every function below is translated line by line from the
source; stateful methods become functions from the model to a new
model, and raisable code returns `Except PyErr`.  Parts of the
repository that the source imports from `base_editor` (which is not
under src/) are modelled from the spec and carry a doc comment saying
so.
-/

set_option maxRecDepth 4000

namespace Spicelib

/-! ## Python string primitives

Faithful models of the Python `str` operations the source uses:
`str.split()` (whitespace runs, optional maxsplit), `str.strip()`,
`str.upper()`, `str.startswith`, substring containment (`in`), and
`int(...)` conversion. -/

/-- Python whitespace class, as used by `str.split`/`str.strip` and the
regex `\s` class: space, tab, newline, carriage return, vertical tab,
form feed. -/
def pyIsSpace (c : Char) : Bool :=
  c == ' ' || c == '\t' || c == '\n' || c == '\r' || c == '\x0b' || c == '\x0c'

/-- Is `pat` a leading sequence of `s`? (List-level worker for Python
`str.startswith`.) -/
def leadsList : List Char → List Char → Bool
  | [], _ => true
  | _ :: _, [] => false
  | a :: p, b :: t => a == b && leadsList p t

/-- Python `s.startswith(pre)`. -/
def pyStartsWith (s pre : String) : Bool :=
  leadsList pre.data s.data

/-- Does `needle` occur as a contiguous run inside `hay`? (List-level
worker for Python `needle in hay` on strings.) -/
def subOcc : List Char → List Char → Bool
  | n, [] => n.isEmpty
  | n, b :: t => leadsList n (b :: t) || subOcc n t

/-- Python `needle in hay` for strings: substring containment. -/
def pyInStr (needle hay : String) : Bool :=
  subOcc needle.data hay.data

/-- Python `str.strip()` (both ends). -/
def pyStrip (s : String) : String :=
  ⟨((s.data.dropWhile pyIsSpace).reverse.dropWhile pyIsSpace).reverse⟩

/-- Python `str.upper()` (ASCII is all the source ever feeds it). -/
def pyUpper (s : String) : String :=
  ⟨s.data.map Char.toUpper⟩

/-- Worker for Python `str.split`: `m = some k` means at most `k`
splits remain (`str.split(maxsplit=k)`), `none` means unlimited.  The
fuel argument only bounds recursion; `length s + 1` always suffices
because every round consumes at least one character. -/
def splitFuel : Nat → Option Nat → List Char → List (List Char)
  | 0, _, _ => []
  | fuel + 1, m, s =>
    let t := s.dropWhile pyIsSpace
    if t.isEmpty then []
    else
      match m with
      | some 0 => [t]
      | _ =>
        let tok := t.takeWhile (fun c => !pyIsSpace c)
        tok :: splitFuel fuel (m.map Nat.pred) (t.drop tok.length)

/-- Python `s.split()`: split on whitespace runs, no empty fields. -/
def pySplit (s : String) : List String :=
  (splitFuel (s.data.length + 1) none s.data).map String.mk

/-- Python `s.split(maxsplit=k)`: after `k` splits the remainder (with
leading whitespace skipped) is returned verbatim as the final field. -/
def pySplitMax (s : String) (k : Nat) : List String :=
  (splitFuel (s.data.length + 1) (some k) s.data).map String.mk

/-- Decimal digits to the `Nat` they denote (`none` when empty or a
non-digit appears), helper for `int(...)`. -/
def digitsToNat : List Char → Option Nat
  | [] => none
  | l =>
    if l.all Char.isDigit then
      some (l.foldl (fun a c => a * 10 + (c.toNat - '0'.toNat)) 0)
    else none

/-- Python `int(token)` on an already whitespace-free token: optional
sign followed by at least one digit, else `ValueError` (`none`). -/
def pyInt (s : String) : Option Int :=
  match s.data with
  | '-' :: rest => (digitsToNat rest).map (fun n => -(n : Int))
  | '+' :: rest => (digitsToNat rest).map (fun n => (n : Int))
  | l => (digitsToNat l).map (fun n => (n : Int))

/-! ## Python exceptions -/

/-- The exceptions the embedded methods can raise.  `ValueError`,
`AssertionError`, `NotImplementedError`, `IndexError`, `TypeError`,
`AttributeError` and `RuntimeError` are Python built-ins raised by the
source.  Modelled from the spec: `ComponentNotFoundError` and
`ParameterNotFoundError` are the two lookup-error classes imported from
`base_editor` (not under src/); per §6/§7 of the spec they are distinct
error kinds. -/
inductive PyErr where
  | valueError (msg : String)
  | assertionError (msg : String)
  | notImplementedError (msg : String)
  | indexError (msg : String)
  | typeError (msg : String)
  | attributeError (msg : String)
  | runtimeError (msg : String)
  | componentNotFoundError (msg : String)
  | parameterNotFoundError (msg : String)
deriving DecidableEq, Repr

/-- The kind (Python class) of an exception, with the message erased:
this is what an `except SomeError:` clause can branch on. -/
inductive PyErrKind where
  | valueError
  | assertionError
  | notImplementedError
  | indexError
  | typeError
  | attributeError
  | runtimeError
  | componentNotFound
  | parameterNotFound
deriving DecidableEq, Repr

def PyErr.kind : PyErr → PyErrKind
  | .valueError _ => .valueError
  | .assertionError _ => .assertionError
  | .notImplementedError _ => .notImplementedError
  | .indexError _ => .indexError
  | .typeError _ => .typeError
  | .attributeError _ => .attributeError
  | .runtimeError _ => .runtimeError
  | .componentNotFoundError _ => .componentNotFound
  | .parameterNotFoundError _ => .parameterNotFound

/-- Successful result of an embedded method, `none` on an exception. -/
def resOk {α : Type} : Except PyErr α → Option α
  | .ok a => some a
  | .error _ => none

/-- The exception an embedded method raised, `none` on success. -/
def resErr {α : Type} : Except PyErr α → Option PyErr
  | .ok _ => none
  | .error e => some e

/-- The kind of the exception raised, `none` on success. -/
def errKind {α : Type} (r : Except PyErr α) : Option PyErrKind :=
  (resErr r).map PyErr.kind

/-! ## Data model

Modelled from the spec (§3): the geometry primitives `Point`, `Line`,
`Text`, the alignment and rotation enumerations and
`SchematicComponent` live in `base_editor`, which is not under src/;
their fields are exactly the ones the source reads and writes.  `Text`
is parametric in the type of its `size` field because the source stores
an `int` there for directives (sign-encoded) but leaves the raw token
string in place for WINDOW attribute texts. -/

inductive HorAlign where
  | LEFT
  | CENTER
  | RIGHT
deriving DecidableEq, Repr

inductive VerAlign where
  | TOP
  | CENTER
  | BOTTOM
deriving DecidableEq, Repr

inductive ERotation where
  | R0
  | R90
  | R180
  | R270
deriving DecidableEq, Repr

structure Point where
  X : Int
  Y : Int
deriving DecidableEq, Repr

structure Line where
  V1 : Point
  V2 : Point
deriving DecidableEq, Repr

/-- Modelled from the spec (§3 Text): positioned text with size and a
two-axis alignment.  The alignment defaults are the documented default
pair (left-horizontal, bottom-vertical); the source never reads an
alignment it did not first set on directives, so the default only has
to be self-consistent. -/
structure Text (σ : Type) where
  coord : Point
  text : String
  size : σ
  textAlignment : HorAlign := .LEFT
  verticalAlignment : VerAlign := .BOTTOM
deriving DecidableEq, Repr

/-- A component attribute value: a plain string, or a positioned
WINDOW text.  Modelled from the spec (§3 Component): attribute slots
are dynamically typed in the source; the spec calls for a tagged
variant. -/
inductive AttrVal where
  | str (s : String)
  | wtext (t : Text String)
deriving DecidableEq, Repr

/-- Modelled from the spec (§3 Component): symbol name, position,
rotation, optional reference (None until SYMATTR InstName arrives) and
an insertion-ordered attribute mapping, kept here as an association
list. -/
structure SchematicComponent where
  symbol : String := ""
  position : Point := ⟨0, 0⟩
  rotation : ERotation := .R0
  reference : Option String := none
  attributes : List (String × AttrVal) := []
deriving DecidableEq, Repr

/-- The state of an `AscEditor`: version and sheet line (stored as the
strings the source keeps), and the ordered wire/label/directive
sequences plus the insertion-ordered component map (association list,
like a Python dict preserving insertion order). -/
structure AscModel where
  version : String := "4"
  sheet : String := "(0, 0)"
  wires : List Line := []
  labels : List (Text Int) := []
  directives : List (Text Int) := []
  components : List (String × SchematicComponent) := []
deriving DecidableEq, Repr

/-- First value bound to `k`, like Python `d[k]` lookup / `k in d`. -/
def alistLookup {β : Type} : List (String × β) → String → Option β
  | [], _ => none
  | (a, b) :: t, k => if a = k then some b else alistLookup t k

/-- Python `d[k] = v` on an insertion-ordered dict: replaces in place
when the key exists, appends otherwise. -/
def alistSet {β : Type} : List (String × β) → String → β → List (String × β)
  | [], k, v => [(k, v)]
  | (a, b) :: t, k, v =>
    if a = k then (a, v) :: t else (a, b) :: alistSet t k v

/-! ## Alignment token codec (asc_editor.py lines 51-93) -/

/-- `asc_text_align_set`: decode a symbolic alignment token onto the
(horizontal, vertical) pair of a Text; unrecognized tokens fall into
the default branch. -/
def asc_text_align_set {σ : Type} (text : Text σ) (alignment : String) : Text σ :=
  if alignment = "Left" then
    { text with textAlignment := .LEFT, verticalAlignment := .CENTER }
  else if alignment = "Center" then
    { text with textAlignment := .CENTER, verticalAlignment := .CENTER }
  else if alignment = "Right" then
    { text with textAlignment := .RIGHT, verticalAlignment := .CENTER }
  else if alignment = "VTop" then
    { text with textAlignment := .CENTER, verticalAlignment := .TOP }
  else if alignment = "VCenter" then
    { text with textAlignment := .CENTER, verticalAlignment := .CENTER }
  else if alignment = "VBottom" then
    { text with textAlignment := .LEFT, verticalAlignment := .BOTTOM }
  else
    -- Default
    { text with textAlignment := .LEFT, verticalAlignment := .BOTTOM }

/-- `asc_text_align_get`: re-encode the (horizontal, vertical) pair
back to a symbolic token.  The `VCenter` branch is kept even though it
sits under the test that already excluded a CENTER vertical alignment,
exactly as in the source. -/
def asc_text_align_get {σ : Type} (text : Text σ) : String :=
  if text.verticalAlignment = .CENTER then
    if text.textAlignment = .RIGHT then "Right"
    else if text.textAlignment = .CENTER then "Center"
    else "Left"
  else
    if text.verticalAlignment = .TOP then "VTop"
    else if text.verticalAlignment = .CENTER then "VCenter"
    else if text.verticalAlignment = .BOTTOM then "VBottom"
    else "Left"

/-! ## TEXT record grammar (TEXT_REGEX, asc_editor.py lines 29-36)

The source compiles, with IGNORECASE,

  TEXT (-?\d+)\s+(-?\d+)\s+(Left|Right|Top|Bottom)\s(\d+)\s*([!;])(.*)

and applies it with `.match` (anchored at the start of the line).  The
matcher below follows that pattern atom by atom; every alternation in
it is prefix-free so the translation into a deterministic matcher is
exact. -/

/-- Leading decimal digits of `s` together with the remainder
(`\d*`). -/
def takeDigits (s : List Char) : List Char × List Char :=
  (s.takeWhile Char.isDigit, s.dropWhile Char.isDigit)

/-- `-?\d+`: optional minus sign, then at least one digit. -/
def matchSignedInt (s : List Char) : Option (Int × List Char) :=
  match s with
  | '-' :: rest =>
    let (ds, r) := takeDigits rest
    match digitsToNat ds with
    | some n => some (-(n : Int), r)
    | none => none
  | _ =>
    let (ds, r) := takeDigits s
    match digitsToNat ds with
    | some n => some ((n : Int), r)
    | none => none

/-- `\d+`: at least one digit, no sign. -/
def matchNat (s : List Char) : Option (Nat × List Char) :=
  let (ds, r) := takeDigits s
  match digitsToNat ds with
  | some n => some (n, r)
  | none => none

/-- `\s+`: at least one whitespace character. -/
def matchSpaces1 (s : List Char) : Option (List Char) :=
  match s with
  | c :: rest => if pyIsSpace c then some (rest.dropWhile pyIsSpace) else none
  | [] => none

/-- Case-insensitive literal, returning the input characters that
matched (regex groups capture the text as it appeared). -/
def ciLiteral : List Char → List Char → Option (List Char × List Char)
  | [], s => some ([], s)
  | _ :: _, [] => none
  | p :: ps, c :: cs =>
    if p.toLower == c.toLower then
      match ciLiteral ps cs with
      | some (got, rest) => some (c :: got, rest)
      | none => none
    else none

/-- `(Left|Right|Top|Bottom)` under IGNORECASE; the four alternatives
are pairwise prefix-free, so first-match is the regex semantics. -/
def matchAlignToken (s : List Char) : Option (List Char × List Char) :=
  match ciLiteral "Left".data s with
  | some r => some r
  | none =>
    match ciLiteral "Right".data s with
    | some r => some r
    | none =>
      match ciLiteral "Top".data s with
      | some r => some r
      | none => ciLiteral "Bottom".data s

/-- The six captured groups of TEXT_REGEX. -/
structure TextMatch where
  x : Int
  y : Int
  align : String
  sizeVal : Nat
  tag : Char
  body : String
deriving DecidableEq, Repr

/-- `TEXT_REGEX.match(line)`: `none` models a failed match.  The final
group `(.*)` captures to the end of the line (lines are modelled
without their trailing newline, which `.` never matches anyway). -/
def textRegexMatch (line : String) : Option TextMatch := do
  let (_, s) ← ciLiteral "TEXT ".data line.data
  let (x, s) ← matchSignedInt s
  let s ← matchSpaces1 s
  let (y, s) ← matchSignedInt s
  let s ← matchSpaces1 s
  let (alignChars, s) ← matchAlignToken s
  -- a single `\s` between the alignment token and the size field
  let s ← match s with
          | c :: rest => if pyIsSpace c then some rest else none
          | [] => none
  let (sz, s) ← matchNat s
  let s := s.dropWhile pyIsSpace   -- \s*
  match s with
  | c :: rest =>
    if c == '!' || c == ';' then
      some { x := x, y := y, align := ⟨alignChars⟩, sizeVal := sz, tag := c, body := ⟨rest⟩ }
    else none
  | [] => none

/-! ## Record parser (AscEditor.reset_netlist, lines 155-228) -/

/-- Tokens accepted by ASC_ROTATION_DICT. -/
def ascRotationLookup (s : String) : Option ERotation :=
  if s = "R0" then some .R0
  else if s = "R90" then some .R90
  else if s = "R180" then some .R180
  else if s = "R270" then some .R270
  else none

/-- ASC_INV_ROTATION_DICT. -/
def ascInvRotation : ERotation → String
  | .R0 => "R0"
  | .R90 => "R90"
  | .R180 => "R180"
  | .R270 => "R270"

/-- Parse state of the line loop: the model being filled and the
"currently open component" accumulator. -/
structure ParseState where
  model : AscModel
  component : Option SchematicComponent
deriving DecidableEq, Repr

/-- Commit the open accumulator into the component map, asserting that
its InstName was given (reset_netlist lines 164-166 and 226-228). -/
def commitComponent (m : AscModel) (c : SchematicComponent) : Except PyErr AscModel :=
  match c.reference with
  | none => .error (.assertionError "Component InstName was not given")
  | some r => .ok { m with components := alistSet m.components r c }

/-- `int(tok)` with the ValueError Python raises on a bad literal. -/
def pyIntE (tok : String) : Except PyErr Int :=
  match pyInt tok with
  | some v => .ok v
  | none =>
    .error (.valueError ("invalid literal for int() with base 10: " ++ tok))

/-- One iteration of the reset_netlist line loop.  The branch order and
the order of effects inside each branch follow the source exactly;
the only branch that can leave the state untouched without raising is a
TEXT line that fails TEXT_REGEX (lines 191-204 have no else for a
failed match). -/
def parseLine (st : ParseState) (line : String) : Except PyErr ParseState :=
  if pyStartsWith line "SYMBOL" then
    match pySplit line with
    | [_tag, symbol, posX, posY, rotation] => do
      let m ← match st.component with
              | some c => commitComponent st.model c
              | none => .ok st.model
      let px ← pyIntE posX
      let py ← pyIntE posY
      let rot ← match ascRotationLookup rotation with
                | some r => Except.ok r
                | none => Except.error (.valueError ("Invalid Rotation value: " ++ rotation))
      .ok { model := m,
            component := (some { symbol := symbol, position := ⟨px, py⟩, rotation := rot }) }
    | _ => .error (.valueError "SYMBOL record: wrong field count for unpacking")
  else if pyStartsWith line "WINDOW" then
    match st.component with
    | none => .error (.assertionError "Syntax Error: WINDOW clause without SYMBOL")
    | some c =>
      match pySplit line with
      | [_tag, numRef, posX, posY, alignment, size] => do
        let px ← pyIntE posX
        let py ← pyIntE posY
        let t : Text String := { coord := ⟨px, py⟩, text := numRef, size := size }
        let t := asc_text_align_set t alignment
        .ok { st with component :=
                (some { c with attributes := alistSet c.attributes ("WINDOW " ++ numRef) (.wtext t) }) }
      | _ => .error (.valueError "WINDOW record: wrong field count for unpacking")
  else if pyStartsWith line "SYMATTR" then
    match st.component with
    | none => .error (.assertionError "Syntax Error: SYMATTR clause without SYMBOL")
    | some c =>
      match pySplitMax line 2 with
      | [_tag, ref, txt] =>
        let txt := pyStrip txt
        if ref = "InstName" then
          .ok { st with component := (some { c with reference := some txt }) }
        else
          .ok { st with component := (some { c with attributes := alistSet c.attributes ref (.str txt) }) }
      | _ => .error (.valueError "SYMATTR record: wrong field count for unpacking")
  else if pyStartsWith line "TEXT" then
    match textRegexMatch line with
    | some tm =>
      let size : Int := if tm.tag != '!' then -(tm.sizeVal : Int) else (tm.sizeVal : Int)
      let t : Text Int := { coord := ⟨tm.x, tm.y⟩, text := pyStrip tm.body, size := size }
      let t := asc_text_align_set t tm.align
      .ok { st with model := { st.model with directives := st.model.directives ++ [t] } }
    | none => .ok st
  else if pyStartsWith line "WIRE" then
    match pySplit line with
    | [_tag, x1, y1, x2, y2] => do
      let a ← pyIntE x1
      let b ← pyIntE y1
      let cx ← pyIntE x2
      let cy ← pyIntE y2
      .ok { st with model :=
              { st.model with wires := st.model.wires ++ [⟨⟨a, b⟩, ⟨cx, cy⟩⟩] } }
    | _ => .error (.valueError "WIRE record: wrong field count for unpacking")
  else if pyStartsWith line "FLAG" then
    match pySplitMax line 4 with
    | [_tag, posX, posY, txt] => do
      let px ← pyIntE posX
      let py ← pyIntE posY
      .ok { st with model :=
              { st.model with labels := st.model.labels ++
                  [{ coord := ⟨px, py⟩, text := txt, size := 1 }] } }
    | l =>
      if l.length > 4 then .error (.valueError "too many values to unpack (expected 4)")
      else .error (.valueError "not enough values to unpack (expected 4)")
  else if pyStartsWith line "Version" then
    match pySplit line with
    | [_tag, version] =>
      if version = "4" then
        .ok { st with model := { st.model with version := version } }
      else
        .error (.assertionError ("Unsupported version : " ++ version))
    | _ => .error (.valueError "Version record: wrong field count for unpacking")
  else if pyStartsWith line "SHEET " then
    .ok { st with model := { st.model with sheet := pyStrip ⟨line.data.drop 6⟩ } }
  else
    .error (.notImplementedError
      ("Primitive not supported for ASC file\n\"" ++ line ++ "\""))

/-- Fold of parseLine over the file lines. -/
def parseLines : ParseState → List String → Except PyErr ParseState
  | st, [] => .ok st
  | st, l :: rest =>
    match parseLine st l with
    | .ok st2 => parseLines st2 rest
    | .error e => .error e

/-- `AscEditor.reset_netlist` on the given file lines (each without its
trailing newline): run the line loop from a cleared model, then commit
the last open accumulator.  `super().reset_netlist()` (base_editor, not
under src/) clears the wire/label/directive/component collections, so
the loop starts from the empty model. -/
def reset_netlist (lines : List String) : Except PyErr AscModel :=
  match parseLines { model := {}, component := none } lines with
  | .error e => .error e
  | .ok st =>
    match st.component with
    | some c => commitComponent st.model c
    | none => .ok st.model

/-! ## Record serializer (AscEditor.save_netlist, lines 113-153) -/

/-- The WINDOW attribute lines of one component: attributes whose name
starts with WINDOW and whose value is a Text (lines 132-138). -/
def windowLines (c : SchematicComponent) : List String :=
  c.attributes.filterMap fun av =>
    if pyStartsWith av.1 "WINDOW" then
      match av.2 with
      | .wtext t =>
        some (av.1 ++ " " ++ toString t.coord.X ++ " " ++ toString t.coord.Y
              ++ " " ++ asc_text_align_get t ++ " " ++ t.size)
      | .str _ => none
    else none

/-- How Python's f-string renders an attribute value in the SYMATTR
loop (line 142); a Text object would render through its repr — that
case is unreachable for parsed models, where every non-WINDOW
attribute is a plain string. -/
def attrValueStr : AttrVal → String
  | .str s => s
  | .wtext t => "Text(" ++ t.text ++ ")"

/-- The SYMATTR lines of one component other than InstName: the
attributes whose name does not start with WINDOW (lines 140-142). -/
def symattrLines (c : SchematicComponent) : List String :=
  c.attributes.filterMap fun av =>
    if pyStartsWith av.1 "WINDOW" then none
    else some ("SYMATTR " ++ av.1 ++ " " ++ attrValueStr av.2)

/-- All serialized lines of one component (lines 126-142). -/
def componentLines (kv : String × SchematicComponent) : List String :=
  let c := kv.2
  ("SYMBOL " ++ c.symbol ++ " " ++ toString c.position.X ++ " "
     ++ toString c.position.Y ++ " " ++ ascInvRotation c.rotation)
  :: windowLines c
  ++ ["SYMATTR InstName " ++ (c.reference.getD "None")]
  ++ symattrLines c

/-- One serialized TEXT line (lines 143-153): negative size is written
as its magnitude and the directive-type tag the source emits for a
comment is the character it actually writes. -/
def directiveLine (d : Text Int) : String :=
  let alignment := asc_text_align_get d
  let sizeOut : Int := if d.size < 0 then -d.size else d.size
  let tag : String := if d.size < 0 then "?" else "!"
  "TEXT " ++ toString d.coord.X ++ " " ++ toString d.coord.Y ++ " "
    ++ alignment ++ " " ++ toString sizeOut ++ " " ++ tag ++ d.text

/-- `AscEditor.save_netlist` as the list of lines written (each without
the END_LINE_TERM terminator). -/
def save_netlist (m : AscModel) : List String :=
  ["Version " ++ m.version, "SHEET " ++ m.sheet]
  ++ m.wires.map (fun w =>
       "WIRE " ++ toString w.V1.X ++ " " ++ toString w.V1.Y ++ " "
        ++ toString w.V2.X ++ " " ++ toString w.V2.Y)
  ++ m.labels.map (fun f =>
       "FLAG " ++ toString f.coord.X ++ " " ++ toString f.coord.Y ++ " " ++ f.text)
  ++ (m.components.map componentLines).flatten
  ++ m.directives.map directiveLine

/-! ## Component access (lines 230-307) -/

/-- `AscEditor.get_component_info` (lines 230-235). -/
def get_component_info (m : AscModel) (component : String) :
    Except PyErr SchematicComponent :=
  match alistLookup m.components component with
  | none =>
    .error (.componentNotFoundError
      ("Component " ++ component ++ " not found in ASC file"))
  | some c => .ok c

/-- `AscEditor.get_component_value` (lines 294-299).  The raised class
for a component without a Value attribute is the same
ComponentNotFoundError the reference lookup raises. -/
def get_component_value (m : AscModel) (element : String) : Except PyErr AttrVal := do
  let c ← get_component_info m element
  match alistLookup c.attributes "Value" with
  | none =>
    .error (.componentNotFoundError
      ("Component " ++ element ++ " does not have a Value attribute"))
  | some v => .ok v

/-- `AscEditor.set_component_value` (lines 276-287).  `value` is taken
already formatted: the numeric branch routes through `format_eng`
(base_editor, not under src/) before storing, and the stored value is
an opaque string either way. -/
def set_component_value (m : AscModel) (device : String) (value : String) :
    Except PyErr AscModel := do
  let c ← get_component_info m device
  match alistLookup c.attributes "Value" with
  | some _ =>
    let c2 : SchematicComponent :=
      { c with attributes := alistSet c.attributes "Value" (.str value) }
    .ok { m with components := alistSet m.components device c2 }
  | none =>
    .error (.componentNotFoundError
      ("Component " ++ device ++ " does not have a Value attribute"))

/-- `AscEditor.get_components` (lines 301-304): Python
`[k for k in self._components.keys() if k[0] in prefixes]`; `k[0]` on
an empty reference raises IndexError, and `k[0] in prefixes` is
substring containment of the one-character string. -/
def filterRefs (prefixes : String) : List String → Except PyErr (List String)
  | [] => .ok []
  | k :: rest =>
    match k.data with
    | [] => .error (.indexError "string index out of range")
    | c :: _ => do
      let tail ← filterRefs prefixes rest
      .ok (if pyInStr ⟨[c]⟩ prefixes then k :: tail else tail)

def get_components (m : AscModel) (prefixes : String) : Except PyErr (List String) :=
  if prefixes = "*" then .ok (m.components.map Prod.fst)
  else filterRefs prefixes (m.components.map Prod.fst)

/-- `AscEditor.remove_component` (lines 306-307): `del` raises KeyError
on a missing key; modelled for completeness. -/
def remove_component (m : AscModel) (designator : String) : Except PyErr AscModel :=
  match alistLookup m.components designator with
  | none => .error (.valueError ("KeyError: " ++ designator))
  | some _ =>
    .ok { m with components := m.components.filter (fun kv => kv.1 ≠ designator) }

/-! ## Parameters (lines 237-273) -/

/-- A successful PARAM_REGEX search: the captured value text and the
span of the `replace` group. -/
structure ParamMatch where
  value : String
  rStart : Nat
  rStop : Nat
deriving DecidableEq, Repr

/-- Characters PARAM_REGEX accepts inside a parameter value. -/
def isParamValueChar (c : Char) : Bool :=
  c.isAlphanum || c == '_' || c == '.' || c == '+' || c == '-' || c == '*'
    || c == '/' || c == '{' || c == '}' || c == '(' || c == ')'

/-- Modelled from the spec: PARAM_REGEX is imported from base_editor
(not under src/).  Per §4.3 the pattern matches the parameter's name
followed by `=` and captures the value span; the source additionally
uses a group named `value` (the value text) and a group named `replace`
(the `name=value` span).  The search is case-insensitive
(re.IGNORECASE, line 247) and, like `re.search`, takes the leftmost
position at which the pattern matches. -/
def paramSearchFrom (param : List Char) (pos : Nat) : List Char → Option ParamMatch
  | [] => none
  | c :: rest =>
    match ciLiteral param (c :: rest) with
    | some (_, after) =>
      let afterEq := after.dropWhile (fun a => a == ' ')
      match afterEq with
      | '=' :: tail =>
        let tail2 := tail.dropWhile (fun a => a == ' ')
        let v := tail2.takeWhile isParamValueChar
        let skipped := tail.length - tail2.length
        some { value := ⟨v⟩,
               rStart := pos,
               rStop := pos + param.length + (after.length - afterEq.length) + 1
                        + skipped + v.length }
      | _ => paramSearchFrom param (pos + 1) rest
    | none => paramSearchFrom param (pos + 1) rest

def paramSearch (param text : String) : Option ParamMatch :=
  paramSearchFrom param.data 0 text.data

/-- `AscEditor._get_directive` (lines 237-244): the first directive
whose text startswith the upper-cased command and on which the search
pattern succeeds, together with its index in the directive list. -/
def getDirectiveFrom (commandUpped : String) (param : String) :
    Nat → List (Text Int) → Option (ParamMatch × Nat)
  | _, [] => none
  | i, d :: rest =>
    if pyStartsWith d.text commandUpped then
      match paramSearch param d.text with
      | some pm => some (pm, i)
      | none => getDirectiveFrom commandUpped param (i + 1) rest
    else getDirectiveFrom commandUpped param (i + 1) rest

def _get_directive (m : AscModel) (command : String) (param : String) :
    Option (ParamMatch × Nat) :=
  getDirectiveFrom (pyUpper command) param 0 m.directives

/-- `AscEditor.get_parameter` (lines 246-252): returns the value text
(`match.group('value')`) and the directive it was found in (here its
index), or raises ParameterNotFoundError. -/
def get_parameter (m : AscModel) (param : String) : Except PyErr (String × Nat) :=
  match _get_directive m ".PARAM" param with
  | some (pm, i) => .ok (pm.value, i)
  | none =>
    .error (.parameterNotFoundError
      ("Parameter " ++ param ++ " not found in ASC file"))

/-! ## Free-space heuristic (AscEditor._get_text_space, lines 309-341) -/

/-- Running bounds of the heuristic. -/
structure Bounds where
  minX : Int
  maxX : Int
  minY : Int
  maxY : Int
deriving DecidableEq, Repr

/-- `AscEditor._get_text_space`, translated with its wire loop exactly
as written: lines 323-324 fold `wire.V2.X` — not `wire.V2.Y` — into
both y-bounds.  The sheet coordinates feed only the minima (lines
317-319). -/
def _get_text_space (m : AscModel) : Except PyErr (Int × Int) := do
  let b0 : Bounds := { minX := 100000, maxX := -100000, minY := 100000, maxY := -100000 }
  let (sx, sy) ← match pySplit m.sheet with
                 | [_, x, y] => do
                   let xv ← pyIntE x
                   let yv ← pyIntE y
                   Except.ok (xv, yv)
                 | _ => Except.error (.valueError "sheet record: wrong field count for unpacking")
  let b1 : Bounds := { b0 with minX := min b0.minX sx, minY := min b0.minY sy }
  let b2 := m.wires.foldl (fun b w =>
    { minX := min (min b.minX w.V1.X) w.V2.X,
      maxX := max (max b.maxX w.V1.X) w.V2.X,
      minY := min (min b.minY w.V1.Y) w.V2.X,
      maxY := max (max b.maxY w.V1.Y) w.V2.X }) b1
  let b3 := m.labels.foldl (fun b f =>
    { minX := min b.minX f.coord.X, maxX := max b.maxX f.coord.X,
      minY := min b.minY f.coord.Y, maxY := max b.maxY f.coord.Y }) b2
  let b4 := m.directives.foldl (fun b d =>
    { minX := min b.minX d.coord.X, maxX := max b.maxX d.coord.X,
      minY := min b.minY d.coord.Y, maxY := max b.maxY d.coord.Y }) b3
  let b5 := m.components.foldl (fun b kv =>
    { minX := min b.minX kv.2.position.X, maxX := max b.maxX kv.2.position.X,
      minY := min b.minY kv.2.position.Y, maxY := max b.maxY kv.2.position.Y }) b4
  .ok (b5.minX, b5.maxY + 24)

/-- Modelled from the spec (§4.4), for comparison with the source: the
bounding box over the sheet origin, BOTH coordinates of every wire
endpoint, every net-flag coordinate, every directive coordinate and
every component position; the result is the box's minimum x paired
with its maximum y plus the 24-unit text-line increment. -/
def specTextSpace (m : AscModel) : Except PyErr (Int × Int) := do
  let (sx, sy) ← match pySplit m.sheet with
                 | [_, x, y] => do
                   let xv ← pyIntE x
                   let yv ← pyIntE y
                   Except.ok (xv, yv)
                 | _ => Except.error (.valueError "sheet record: wrong field count for unpacking")
  let pts : List Point :=
    ⟨sx, sy⟩ :: (m.wires.map Line.V1 ++ m.wires.map Line.V2
      ++ m.labels.map Text.coord ++ m.directives.map Text.coord
      ++ m.components.map (fun kv => kv.2.position))
  let minX := (pts.map Point.X).foldl min sx
  let maxY := (pts.map Point.Y).foldl max sy
  .ok (minX, maxY + 24)

/-! ## set_parameter (lines 254-273) -/

/-- `AscEditor.set_parameter`: the source first calls `get_parameter`,
which raises ParameterNotFoundError when the parameter is absent, so
the not-found branch below propagates that exception and the source's
own append branch (lines 265-273) is reachable only when
`get_parameter` succeeded with a falsy (empty) value string.  When the
value string is truthy the source evaluates
`match.group('replace')` — but `match` is the string returned by
`get_parameter`, not a match object, so an AttributeError is raised. -/
def set_parameter (m : AscModel) (param : String) (value : String) :
    Except PyErr AscModel :=
  match get_parameter m param with
  | .error e => .error e
  | .ok (valueStr, _i) =>
    if valueStr = "" then
      match _get_text_space m with
      | .error e => .error e
      | .ok (x, y) =>
        .ok { m with directives := m.directives ++
                [{ coord := ⟨x, y⟩, text := ".param " ++ param ++ "=" ++ value, size := 2 }] }
    else
      .error (.attributeError "'str' object has no attribute 'group'")

/-! ## add_instruction (lines 343-364) -/

/-- Modelled from the spec (§4.3): the fixed set of unique analysis
directive keywords (UNIQUE_SIMULATION_DOT_INSTRUCTIONS, base_editor,
not under src/). -/
def UNIQUE_SIMULATION_DOT_INSTRUCTIONS : List String :=
  [".AC", ".DC", ".TRAN", ".NOISE", ".TF", ".OP"]

/-- The tail of `add_instruction` (lines 361-364): it computes the
free-space point and then appends to `self._asc_file_lines`.  Modelled
from the spec (§9): no code in the repository ever assigns an
`_asc_file_lines` attribute or defines `_parse_asc_file` — the
instruction-mutation code assumes a line-indexed representation the
parser does not produce — so the append raises AttributeError (after
any exception `_get_text_space` itself raises). -/
def addInstructionAppend (m : AscModel) : Except PyErr AscModel :=
  match _get_text_space m with
  | .error e => .error e
  | .ok _ =>
    .error (.attributeError "'AscEditor' object has no attribute '_asc_file_lines'")

/-- `AscEditor.add_instruction`: for a unique-kind command the loop
body executes `line_no, line = self._directives[i]`, unpacking a Text
object as a pair, which raises TypeError as soon as any directive
exists; with no directives the loop is skipped and the append tail
runs. -/
def add_instruction (m : AscModel) (instruction : String) : Except PyErr AscModel :=
  let instr := pyStrip instruction
  match pySplit instr with
  | [] => .error (.indexError "list index out of range")
  | w :: _ =>
    let command := pyUpper w
    if UNIQUE_SIMULATION_DOT_INSTRUCTIONS.contains command then
      match m.directives with
      | [] => addInstructionAppend m
      | _ :: _ => .error (.typeError "cannot unpack non-iterable Text object")
    else if pyStartsWith command ".PARAM" then
      .error (.runtimeError
        "The .PARAM instruction should be added using the \"set_parameter\" method")
    else addInstructionAppend m

/-! ## Spec-side comparison definitions -/

/-- Written from the spec sentence for get_components: the references
whose FIRST CHARACTER IS A MEMBER of the prefixes string. -/
def firstCharIsMember (k prefixes : String) : Bool :=
  match k.data with
  | [] => false
  | c :: _ => prefixes.data.any (fun d => c == d)

/-! ## Concrete inputs used by the claim theorems -/

/-- A well-formed file whose only drawing element is a comment
directive. -/
def c1lines : List String :=
  ["Version 4", "SHEET 1 880 680", "TEXT 0 0 Left 2 ;hello"]

/-- The model `c1lines` parses to. -/
def c1model : AscModel :=
  { version := "4", sheet := "1 880 680",
    directives := [{ coord := ⟨0, 0⟩, text := "hello", size := -2,
                     textAlignment := .LEFT, verticalAlignment := .CENTER }] }

/-- A comment directive (negative size) as produced by the parser. -/
def c2comment : Text Int :=
  { coord := ⟨10, 20⟩, text := "note", size := -2,
    textAlignment := .LEFT, verticalAlignment := .CENTER }

/-- An active directive (positive size) as produced by the parser. -/
def c2active : Text Int :=
  { coord := ⟨10, 20⟩, text := ".tran 10m", size := 2,
    textAlignment := .LEFT, verticalAlignment := .CENTER }

/-- A model with no directives at all, hence no `.param res` anywhere. -/
def c3empty : AscModel := { sheet := "1 0 0" }

/-- A model with one `.PARAM res=5` directive. -/
def c3param : AscModel :=
  { sheet := "1 0 0",
    directives := [{ coord := ⟨0, 0⟩, text := ".PARAM res=5", size := 2 }] }

/-- A model holding one unique-kind (`.tran`) directive. -/
def c4m : AscModel :=
  { sheet := "1 0 0",
    directives := [{ coord := ⟨0, 0⟩, text := ".tran 1", size := 2 }] }

/-- A model holding no directive. -/
def c4empty : AscModel := { sheet := "1 0 0" }

/-- A model whose only wire runs from (0,0) to (5,100): its lowest
point has y = 100, reached only through `V2.Y`. -/
def c5m : AscModel := { sheet := "1 0 0", wires := [⟨⟨0, 0⟩, ⟨5, 100⟩⟩] }

/-- A file whose third line starts with TEXT but fails TEXT_REGEX. -/
def c6lines : List String := ["Version 4", "SHEET 1 880 680", "TEXT banana"]

/-- What `c6lines` parses to: the malformed TEXT line left no trace. -/
def c6model : AscModel := { version := "4", sheet := "1 880 680" }

/-- An empty parse state for the C6 witness. -/
def c6wst : ParseState := { model := {}, component := none }

/-- A model whose only component R1 exists but has no Value
attribute. -/
def c7m : AscModel :=
  { components := [("R1",
      { symbol := "res", position := ⟨100, 200⟩, reference := some "R1",
        attributes := [("SpiceModel", .str "RMOD")] })] }

/-- The R1 component of `c7m`. -/
def c7comp : SchematicComponent :=
  { symbol := "res", position := ⟨100, 200⟩, reference := some "R1",
    attributes := [("SpiceModel", .str "RMOD")] }

/-- A directive text to push through the alignment codec. -/
def c8t : Text Int := { coord := ⟨0, 0⟩, text := "x", size := 2 }

/-- A FLAG record whose label text contains whitespace. -/
def c9bad : List String := ["Version 4", "SHEET 1 880 680", "FLAG 10 20 my label"]

/-- The same file with a single-word label. -/
def c9good : List String := ["Version 4", "SHEET 1 880 680", "FLAG 10 20 vout"]

/-- A component map with references starting with R, C and V. -/
def c10m : AscModel :=
  { components := [("R1", {}), ("C2", {}), ("RX", {}), ("V1", {})] }

/-! ## Helper lemmas -/

/-- Two startswith tests whose patterns disagree on their first
character cannot both succeed on the same line. -/
theorem leadsList_false_of_head_ne (l : List Char) (c₁ c₂ : Char)
    (p₁ p₂ : List Char) (hne : c₁ ≠ c₂)
    (h : leadsList (c₁ :: p₁) l = true) :
    leadsList (c₂ :: p₂) l = false := by
  cases l with
  | nil => exact absurd h (by simp [leadsList])
  | cons b t =>
    have hb : c₁ = b := by
      have h2 : (c₁ == b && leadsList p₁ t) = true := h
      simp only [Bool.and_eq_true, beq_iff_eq] at h2
      exact h2.1
    subst hb
    have hbe : (c₂ == c₁) = false := beq_eq_false_iff_ne.mpr (Ne.symm hne)
    simp [leadsList, hbe]

/-- Substring containment of a one-character needle is membership of
that character. -/
theorem subOcc_singleton (c : Char) (l : List Char) :
    subOcc [c] l = l.any (fun d => c == d) := by
  induction l with
  | nil => rfl
  | cons b t ih => simp [subOcc, leadsList, ih]

/-- On nonempty references, `filterRefs` is a pure filter on the first
character's membership in the prefixes string. -/
theorem filterRefs_eq (prefixes : String) (l : List String)
    (h : ∀ k ∈ l, k ≠ "") :
    filterRefs prefixes l
      = .ok (l.filter (fun k => firstCharIsMember k prefixes)) := by
  induction l with
  | nil => rfl
  | cons k rest ih =>
    have hk : k ≠ "" := h k (List.mem_cons_self k rest)
    have hrest : ∀ x ∈ rest, x ≠ "" := fun x hx => h x (List.mem_cons_of_mem _ hx)
    cases hd : k.data with
    | nil =>
      exact absurd (by cases k with | mk d => cases hd; rfl) hk
    | cons c cs =>
      have hmem : pyInStr ⟨[c]⟩ prefixes = firstCharIsMember k prefixes := by
        simp [pyInStr, firstCharIsMember, hd, subOcc_singleton]
      simp only [filterRefs, hd, ih hrest, List.filter_cons, bind, Except.bind]
      rw [hmem]

/-! ## Claim theorems -/

/-- Claim C1: serializing a parsed model and re-parsing is claimed to
reproduce the model field for field.  On a file holding a single
comment directive the first parse yields the sign-encoded directive,
but save_netlist writes its directive-type tag as a character that
TEXT_REGEX does not accept, so the re-parse silently drops the
directive and returns a model with an empty directive list — not equal
to the original. -/
theorem save_then_reparse_drops_comment_directive :
    resOk (reset_netlist c1lines) = some c1model
  ∧ save_netlist c1model = ["Version 4", "SHEET 1 880 680", "TEXT 0 0 Left 2 ?hello"]
  ∧ resOk (reset_netlist (save_netlist c1model)) = some { c1model with directives := [] }
  ∧ c1model ≠ { c1model with directives := [] } := by decide

/-- Claim C2: a negative-size (comment) directive is claimed to be
written with the tag character that the TEXT grammar accepts for
comments and to re-parse to the same negative size.  The serializer
writes the magnitude correctly but emits a tag TEXT_REGEX rejects, so
the emitted line matches no TEXT rule at all; the positive-size branch
behaves as claimed. -/
theorem comment_directive_written_with_invalid_tag :
    directiveLine c2comment = "TEXT 10 20 Left 2 ?note"
  ∧ textRegexMatch (directiveLine c2comment) = none
  ∧ directiveLine c2active = "TEXT 10 20 Left 2 !.tran 10m"
  ∧ (resOk (reset_netlist ["Version 4", "SHEET 1 880 680", directiveLine c2active])).map
      (fun m => m.directives) = some [c2active] := by decide

/-- Claim C3: set_parameter is claimed to append a new `.param`
directive when the parameter does not exist and to splice the value
in place when it does.  In the source, the absent case propagates the
ParameterNotFoundError raised by get_parameter (the append branch is
dead code), and the present case raises AttributeError because
get_parameter returns the value string, on which `.group` does not
exist. -/
theorem set_parameter_raises_instead_of_upserting :
    resErr (set_parameter c3empty "res" "1k")
      = some (.parameterNotFoundError "Parameter res not found in ASC file")
  ∧ resErr (set_parameter c3param "res" "1k")
      = some (.attributeError "'str' object has no attribute 'group'") := by decide

/-- Claim C4: add_instruction is claimed to replace an existing
unique-kind directive in place and to append otherwise.  In the source
the unique-kind loop unpacks each stored Text as a (line number, line)
pair and raises TypeError as soon as any directive exists; every
append path reaches the nonexistent `_asc_file_lines` attribute and
raises AttributeError. -/
theorem add_instruction_always_raises :
    resErr (add_instruction c4m ".tran 2")
      = some (.typeError "cannot unpack non-iterable Text object")
  ∧ resErr (add_instruction c4empty ".save V(out)")
      = some (.attributeError "'AscEditor' object has no attribute '_asc_file_lines'")
  ∧ resErr (add_instruction c4empty ".tran 1")
      = some (.attributeError "'AscEditor' object has no attribute '_asc_file_lines'") := by decide

/-- Claim C5: the free-space heuristic is claimed to take the maximum
y over both endpoints of every wire (among the other elements).  The
source folds `wire.V2.X` into both y-bounds, so for a wire from (0,0)
to (5,100) it computes max_y = 5 and returns (0, 29) where the claim's
bounding box gives (0, 124). -/
theorem text_space_misuses_wire_V2_X :
    resOk (_get_text_space c5m) = some (0, 29)
  ∧ resOk (specTextSpace c5m) = some (0, 124) := by decide

/-- Claim C6 (counterexample): a file whose TEXT line fails the TEXT
grammar parses WITHOUT error, and the malformed line is decoded into
nothing — the resulting model is exactly what the file without that
line produces, refuting both "malformed records make the parse fail"
and "no line is silently skipped" at this input. -/
theorem malformed_text_line_silently_skipped :
    resOk (reset_netlist c6lines) = some c6model := by decide

/-- Claim C7 (counterexample): looking up the value of R1 — which
exists but has no Value attribute — and of XX — which does not
exist — raises the SAME error kind (ComponentNotFoundError), so the
two conditions are not distinguishable by kind. -/
theorem value_errors_share_component_not_found_kind :
    errKind (get_component_value c7m "R1") = some PyErrKind.componentNotFound
  ∧ errKind (get_component_value c7m "XX") = some PyErrKind.componentNotFound
  ∧ errKind (set_component_value c7m "R1" "2k") = some PyErrKind.componentNotFound
  ∧ errKind (set_component_value c7m "XX" "2k") = some PyErrKind.componentNotFound := by decide

/-- Claim C8 (counterexample): the VCenter token does not survive the
decode/re-encode cycle — it decodes to the same (center, center) pair
as Center and re-encodes as Center. -/
theorem vcenter_token_does_not_roundtrip :
    asc_text_align_get (asc_text_align_set c8t "VCenter") ≠ "VCenter"
  ∧ asc_text_align_get (asc_text_align_set c8t "VCenter") = "Center" := by decide

/-- Claim C9: a FLAG record whose label text contains whitespace is
claimed to parse into one net label carrying that text.  The source
splits with maxsplit=4 and unpacks into four names, so a two-word
label yields five fields and the parse dies with ValueError; a
single-word label parses as claimed. -/
theorem flag_label_with_whitespace_crashes :
    resErr (reset_netlist c9bad)
      = some (.valueError "too many values to unpack (expected 4)")
  ∧ (resOk (reset_netlist c9good)).map (fun m => m.labels)
      = some [{ coord := ⟨10, 20⟩, text := "vout", size := 1 }] := by decide

/-- Claim C6 (amended): malformed records abort the parse with an
error — an unknown leading keyword, a wrong field count (shown for
WIRE), an unsupported version and an invalid rotation token all
raise — EXCEPT that a line starting with TEXT which fails the TEXT
grammar is silently skipped: the parse state is returned unchanged and
no error is raised. -/
theorem parse_line_error_discipline (st : ParseState) (line : String) :
    (pyStartsWith line "TEXT" = true → textRegexMatch line = none →
      parseLine st line = .ok st)
  ∧ (pyStartsWith line "SYMBOL" = false → pyStartsWith line "WINDOW" = false →
     pyStartsWith line "SYMATTR" = false → pyStartsWith line "TEXT" = false →
     pyStartsWith line "WIRE" = false → pyStartsWith line "FLAG" = false →
     pyStartsWith line "Version" = false → pyStartsWith line "SHEET " = false →
      parseLine st line
        = .error (.notImplementedError
            ("Primitive not supported for ASC file\n\"" ++ line ++ "\"")))
  ∧ (pyStartsWith line "WIRE" = true → pyStartsWith line "WINDOW" = false →
      (pySplit line).length ≠ 5 → resOk (parseLine st line) = none)
  ∧ (∀ t v, pyStartsWith line "Version" = true → pySplit line = [t, v] → v ≠ "4" →
      parseLine st line = .error (.assertionError ("Unsupported version : " ++ v)))
  ∧ (∀ t s x y r, pyStartsWith line "SYMBOL" = true → st.component = none →
      pySplit line = [t, s, x, y, r] → ascRotationLookup r = none →
      resOk (parseLine st line) = none) := by
  refine ⟨?_, ?_, ?_, ?_, ?_⟩
  · intro hT hm
    have hT' : leadsList ('T' :: "EXT".data) line.data = true := hT
    have hS : pyStartsWith line "SYMBOL" = false :=
      leadsList_false_of_head_ne line.data 'T' 'S' "EXT".data "YMBOL".data (by decide) hT'
    have hW : pyStartsWith line "WINDOW" = false :=
      leadsList_false_of_head_ne line.data 'T' 'W' "EXT".data "INDOW".data (by decide) hT'
    have hSy : pyStartsWith line "SYMATTR" = false :=
      leadsList_false_of_head_ne line.data 'T' 'S' "EXT".data "YMATTR".data (by decide) hT'
    simp [parseLine, hS, hW, hSy, hT, hm]
  · intro h1 h2 h3 h4 h5 h6 h7 h8
    simp [parseLine, h1, h2, h3, h4, h5, h6, h7, h8]
  · intro hWr hW hlen
    have hWr' : leadsList ('W' :: "IRE".data) line.data = true := hWr
    have hS : pyStartsWith line "SYMBOL" = false :=
      leadsList_false_of_head_ne line.data 'W' 'S' "IRE".data "YMBOL".data (by decide) hWr'
    have hSy : pyStartsWith line "SYMATTR" = false :=
      leadsList_false_of_head_ne line.data 'W' 'S' "IRE".data "YMATTR".data (by decide) hWr'
    have hT : pyStartsWith line "TEXT" = false :=
      leadsList_false_of_head_ne line.data 'W' 'T' "IRE".data "EXT".data (by decide) hWr'
    simp only [parseLine, hS, hW, hSy, hT, hWr, Bool.false_eq_true, if_false, if_true]
    generalize hq : pySplit line = q
    rw [hq] at hlen
    rcases q with _ | ⟨a, _ | ⟨b, _ | ⟨c, _ | ⟨d, _ | ⟨e, _ | ⟨f, rest⟩⟩⟩⟩⟩⟩
    · rfl
    · rfl
    · rfl
    · rfl
    · rfl
    · simp at hlen
    · rfl
  · intro t v hV hsplit hv
    have hV' : leadsList ('V' :: "ersion".data) line.data = true := hV
    have hS : pyStartsWith line "SYMBOL" = false :=
      leadsList_false_of_head_ne line.data 'V' 'S' "ersion".data "YMBOL".data (by decide) hV'
    have hW : pyStartsWith line "WINDOW" = false :=
      leadsList_false_of_head_ne line.data 'V' 'W' "ersion".data "INDOW".data (by decide) hV'
    have hSy : pyStartsWith line "SYMATTR" = false :=
      leadsList_false_of_head_ne line.data 'V' 'S' "ersion".data "YMATTR".data (by decide) hV'
    have hT : pyStartsWith line "TEXT" = false :=
      leadsList_false_of_head_ne line.data 'V' 'T' "ersion".data "EXT".data (by decide) hV'
    have hWr : pyStartsWith line "WIRE" = false :=
      leadsList_false_of_head_ne line.data 'V' 'W' "ersion".data "IRE".data (by decide) hV'
    have hF : pyStartsWith line "FLAG" = false :=
      leadsList_false_of_head_ne line.data 'V' 'F' "ersion".data "LAG".data (by decide) hV'
    simp [parseLine, hS, hW, hSy, hT, hWr, hF, hV, hsplit, hv]
  · intro t s x y r hS hc hsplit hrot
    simp only [parseLine, hS, if_true]
    rw [hsplit]
    cases hx : pyInt x with
    | none => simp [hc, pyIntE, hx, bind, Except.bind, resOk]
    | some xv =>
      cases hy : pyInt y with
      | none => simp [hc, pyIntE, hx, hy, bind, Except.bind, resOk]
      | some yv => simp [hc, pyIntE, hx, hy, hrot, bind, Except.bind, resOk]

/-- Witness for parse_line_error_discipline: each conjunct applied at a
concrete line and the empty parse state. -/
theorem parse_line_error_discipline_witness :
    parseLine c6wst "TEXT banana" = .ok c6wst
  ∧ parseLine c6wst "BANANA 1"
      = .error (.notImplementedError "Primitive not supported for ASC file\n\"BANANA 1\"")
  ∧ resOk (parseLine c6wst "WIRE 1 2") = none
  ∧ parseLine c6wst "Version 5" = .error (.assertionError "Unsupported version : 5")
  ∧ resOk (parseLine c6wst "SYMBOL res 1 2 R45") = none :=
  ⟨(parse_line_error_discipline c6wst "TEXT banana").1 (by decide) (by decide),
   (parse_line_error_discipline c6wst "BANANA 1").2.1 (by decide) (by decide) (by decide)
     (by decide) (by decide) (by decide) (by decide) (by decide),
   (parse_line_error_discipline c6wst "WIRE 1 2").2.2.1 (by decide) (by decide) (by decide),
   (parse_line_error_discipline c6wst "Version 5").2.2.2.1 "Version" "5"
     (by decide) (by decide) (by decide),
   (parse_line_error_discipline c6wst "SYMBOL res 1 2 R45").2.2.2.2 "SYMBOL" "res" "1" "2" "R45"
     (by decide) (by decide) (by decide) (by decide)⟩

/-- Claim C7 (amended): an absent reference and a present component
without a Value attribute BOTH raise the ComponentNotFoundError kind,
from get_component_value and set_component_value alike; the two
conditions differ only in the message text, not in the error kind, so
the caller cannot branch on the kind to tell them apart. -/
theorem component_value_error_kinds (m : AscModel) (r v : String) :
    (alistLookup m.components r = none →
      get_component_value m r
          = .error (.componentNotFoundError ("Component " ++ r ++ " not found in ASC file"))
      ∧ set_component_value m r v
          = .error (.componentNotFoundError ("Component " ++ r ++ " not found in ASC file")))
  ∧ (∀ c, alistLookup m.components r = some c →
      alistLookup c.attributes "Value" = none →
      get_component_value m r
          = .error (.componentNotFoundError ("Component " ++ r ++ " does not have a Value attribute"))
      ∧ set_component_value m r v
          = .error (.componentNotFoundError ("Component " ++ r ++ " does not have a Value attribute"))) := by
  constructor
  · intro h
    constructor <;>
      simp [get_component_value, set_component_value, get_component_info, h, bind, Except.bind]
  · intro c hc hv
    constructor <;>
      simp [get_component_value, set_component_value, get_component_info, hc, hv, bind, Except.bind]

/-- Witness for component_value_error_kinds at the concrete model c7m:
XX is absent, R1 is present without a Value attribute. -/
theorem component_value_error_kinds_witness :
    get_component_value c7m "XX"
        = .error (.componentNotFoundError "Component XX not found in ASC file")
  ∧ get_component_value c7m "R1"
        = .error (.componentNotFoundError "Component R1 does not have a Value attribute") :=
  ⟨((component_value_error_kinds c7m "XX" "2k").1 (by decide)).1,
   ((component_value_error_kinds c7m "R1" "2k").2 c7comp (by decide) (by decide)).1⟩

/-- Claim C8 (amended): five of the six symbolic alignment tokens
(Left, Center, Right, VTop, VBottom) survive a decode/re-encode cycle;
VCenter decodes to the same (center, center) pair as Center and
re-encodes as Center; every unrecognized token decodes, without
failing, to the default pair (left-horizontal, bottom-vertical). -/
theorem align_codec_amended (t : Text Int) :
    asc_text_align_get (asc_text_align_set t "Left") = "Left"
  ∧ asc_text_align_get (asc_text_align_set t "Center") = "Center"
  ∧ asc_text_align_get (asc_text_align_set t "Right") = "Right"
  ∧ asc_text_align_get (asc_text_align_set t "VTop") = "VTop"
  ∧ asc_text_align_get (asc_text_align_set t "VBottom") = "VBottom"
  ∧ asc_text_align_get (asc_text_align_set t "VCenter") = "Center"
  ∧ (∀ s, s ≠ "Left" → s ≠ "Center" → s ≠ "Right" → s ≠ "VTop" → s ≠ "VCenter" →
      s ≠ "VBottom" →
      asc_text_align_set t s
        = { t with textAlignment := HorAlign.LEFT, verticalAlignment := VerAlign.BOTTOM }) := by
  refine ⟨rfl, rfl, rfl, rfl, rfl, rfl, ?_⟩
  intro s h1 h2 h3 h4 h5 h6
  simp [asc_text_align_set, h1, h2, h3, h4, h5, h6]

/-- Witness for align_codec_amended: the cycle at a concrete text and
the default branch at the concrete unrecognized token Top. -/
theorem align_codec_amended_witness :
    asc_text_align_get (asc_text_align_set c8t "Left") = "Left"
  ∧ asc_text_align_set c8t "Top"
      = { c8t with textAlignment := HorAlign.LEFT, verticalAlignment := VerAlign.BOTTOM } :=
  ⟨(align_codec_amended c8t).1,
   (align_codec_amended c8t).2.2.2.2.2.2 "Top" (by decide) (by decide) (by decide)
     (by decide) (by decide) (by decide)⟩

/-- Claim C10: with any prefixes argument other than the wildcard,
get_components returns exactly the references whose first character is
a member of the prefixes string — a multi-character argument is a set
of accepted leading characters — in component-map insertion order
(filter preserves the key order and the model is left untouched, the
function returning only the list); with the wildcard every reference
is returned. -/
theorem get_components_filters_by_first_char (m : AscModel) (prefixes : String)
    (href : ∀ k ∈ m.components.map Prod.fst, k ≠ "") :
    (prefixes ≠ "*" →
      get_components m prefixes
        = .ok ((m.components.map Prod.fst).filter (fun k => firstCharIsMember k prefixes)))
  ∧ get_components m "*" = .ok (m.components.map Prod.fst) := by
  constructor
  · intro h
    simp only [get_components, if_neg h]
    exact filterRefs_eq prefixes _ href
  · simp [get_components]

/-- Witness for get_components_filters_by_first_char at the concrete
model c10m with the two-character prefixes string RC. -/
theorem get_components_filters_by_first_char_witness :
    resOk (get_components c10m "RC") = some ["R1", "C2", "RX"] := by
  have h := (get_components_filters_by_first_char c10m "RC" (by decide)).1 (by decide)
  rw [h]
  decide

end Spicelib
